import Mathlib

/-!
Shallow embedding of the pacing and request-rotation core of the
ottojs/devops-tests load-testing tool (Go, package main under
cmd/load-test), plus a spec-modelled metrics aggregator.

Conventions used throughout:
* Go time.Duration (int64 nanoseconds) is modelled as Int; overflow of
  duration arithmetic is not at issue in any claim.
* Go float64 arithmetic is modelled exactly over the rationals; each
  concrete input used below is chosen so that the float64 computation is
  exact and agrees with the rational one.
* A Go runtime panic (index out of range, integer division by zero) is
  modelled as the value none.
-/

namespace LoadTest

/-- config.go: RequestConfig. The Go header map is modelled as an
association list; only its contents matter here. -/
structure RequestConfig where
  method : String
  url : String
  body : String
  contentType : String
  headers : List (String × String)
deriving DecidableEq

/-- config.go: RampUpConfig (startRate, endRate, holdDuration seconds). -/
structure RampUpConfig where
  startRate : Int
  endRate : Int
  holdDuration : Int
deriving DecidableEq

/-- config.go: ConnectionPoolConfig. -/
structure ConnectionPoolConfig where
  maxConnections : Option Int
  maxIdleConns : Option Int
deriving DecidableEq

/-- config.go: LoadTestConfig. -/
structure LoadTestConfig where
  duration : Int
  rate : Int
  rampUp : Option RampUpConfig
  timeout : Int
  warmupDelay : Int
  keepAlive : Option Bool
  http2 : Option Bool
  redirects : Option Int
  connectionPool : Option ConnectionPoolConfig
  requests : List RequestConfig
deriving DecidableEq

/-- config.go / validation.go: safety limit MAX_TEST_DURATION (seconds). -/
def MAX_TEST_DURATION : Int := 1800

/-- config.go / validation.go: safety limit MAX_TEST_RATE (requests per second). -/
def MAX_TEST_RATE : Int := 10000

/-- config.go / validation.go: safety limit MAX_TEST_TIMEOUT (seconds). -/
def MAX_TEST_TIMEOUT : Int := 30

/-- validation.go, validateLimits: the redirects negativity test
(config.Redirects != nil AND *config.Redirects < 0). -/
def redirectsNegative (c : LoadTestConfig) : Bool :=
  match c.redirects with
  | some r => decide (r < 0)
  | none => false

/-- validation.go lines 108-137, validateLimits: rejects negative values
and values above the safety limits, in source order. No check involves
the ramp configuration. -/
def validateLimits (c : LoadTestConfig) : Except String Unit :=
  if c.duration < 0 then Except.error ("duration cannot be negative")
  else if c.rate < 0 then Except.error ("rate cannot be negative")
  else if c.timeout < 0 then Except.error ("timeout cannot be negative")
  else if c.warmupDelay < 0 then Except.error ("warmup delay cannot be negative")
  else if redirectsNegative c then Except.error ("redirects cannot be negative")
  else if MAX_TEST_DURATION < c.duration then Except.error ("duration exceeds maximum allowed")
  else if MAX_TEST_RATE < c.rate then Except.error ("rate exceeds maximum allowed")
  else if MAX_TEST_TIMEOUT < c.timeout then Except.error ("timeout exceeds maximum allowed")
  else Except.ok ()

/-- Go conversion int(x) of a uint64 value x on a 64-bit platform:
reinterpretation in twos complement. -/
def uint64ToInt (x : Nat) : Int :=
  if x % 2 ^ 64 < 2 ^ 63 then ((x % 2 ^ 64 : Nat) : Int)
  else ((x % 2 ^ 64 : Nat) : Int) - 2 ^ 64

/-- targeter.go line 66: idx := int(atomic.AddUint64(&counter, 1)-1) % len(processed).
Here calls is the number of completed prior increments, so the uint64
dividend is calls mod 2^64; Go % on int is truncated division remainder
(Int.tmod). -/
def rotIndex (calls : Nat) (n : Nat) : Int :=
  Int.tmod (uint64ToInt calls) (n : Int)

/-- targeter.go: processedRequest. The body field of the Go struct is a
byte slice shared by reference; it is modelled as an optional index into
a buffer store (nil slice for an empty body). -/
structure ProcReq where
  method : String
  url : String
  bodyRef : Option Nat
  headers : List (String × List String)
deriving DecidableEq

/-- targeter.go lines 52-59: the pre-built header map of one template:
User-Agent always, Content-Type when non-empty, then the custom headers. -/
def buildHeaders (req : RequestConfig) : List (String × List String) :=
  [(("User-Agent"), [("otto-load-test")])]
    ++ (if req.contentType = ("") then [] else [(("Content-Type"), [req.contentType])])
    ++ req.headers.map (fun kv => (kv.1, [kv.2]))

/-- One iteration of the pre-processing loop of createRotatingTargeter
(targeter.go lines 31-62): the accumulator carries the allocated body
buffers and the processed table. A non-empty body allocates a fresh
buffer (the []byte conversion copies the string) whose index is recorded
in the processed request. -/
def preprocessStep (acc : List String × List ProcReq) (req : RequestConfig) :
    List String × List ProcReq :=
  if req.body = ("") then
    (acc.1, acc.2 ++ [⟨req.method, req.url, none, buildHeaders req⟩])
  else
    (acc.1 ++ [req.body], acc.2 ++ [⟨req.method, req.url, some acc.1.length, buildHeaders req⟩])

/-- targeter.go lines 31-62: the pre-processing loop over the request list. -/
def preprocess (requests : List RequestConfig) : List String × List ProcReq :=
  requests.foldl preprocessStep ([], [])

/-- targeter.go lines 65-67: index computation and table lookup of one
targeter invocation, with calls completed prior invocations. A negative
index or a modulo by zero panics in Go; both are modelled as none. -/
def targeterSelect (procs : List ProcReq) (calls : Nat) : Option ProcReq :=
  if 0 ≤ rotIndex calls procs.length then
    procs.get? (rotIndex calls procs.length).toNat
  else none

/-- targeter.go: the vegeta.Target fields set by the closure. The body
is the shared buffer reference of the selected template (tgt.Body = req.body
copies the slice header, not the bytes); the header map is rebuilt for
the call from the pre-built headers. -/
structure TargetVal where
  method : String
  url : String
  bodyRef : Option Nat
  header : List (String × List String)
deriving DecidableEq

/-- targeter.go lines 64-93: one invocation of the rotating targeter
closure on the processed table. -/
def targeterCall (procs : List ProcReq) (calls : Nat) : Option TargetVal :=
  (targeterSelect procs calls).map (fun req => ⟨req.method, req.url, req.bodyRef, req.headers⟩)

/-- targeter.go lines 27-94: createRotatingTargeter, returning the
allocated body buffers together with the targeter as a function of the
number of prior calls. -/
def createRotatingTargeter (requests : List RequestConfig) :
    List String × (Nat → Option TargetVal) :=
  ((preprocess requests).1, fun calls => targeterCall (preprocess requests).2 calls)

/-- Observing the body bytes of a returned target through the buffer
store (a consumer reading tgt.Body). -/
def readBody (bufs : List String) (t : TargetVal) : Option String :=
  t.bodyRef.map (fun r => bufs.getD r (""))

/-- Mutating the body bytes of a returned target in place (a consumer
writing through tgt.Body). -/
def writeBody (bufs : List String) (t : TargetVal) (content : String) : List String :=
  match t.bodyRef with
  | some r => bufs.set r content
  | none => bufs

/-- main.go lines 62-66 followed by the targeter construction: the
program exits with an error before constructing the rotation source when
the request list is empty. -/
def mainBuildTargeter (requests : List RequestConfig) :
    Except String (List String × List ProcReq) :=
  if requests.length = 0 then Except.error ("Error: No requests found in config file")
  else Except.ok (preprocess requests)

/-- time.Second in nanoseconds. -/
def nsPerSecond : Int := 1000000000

/-- time.Duration.Seconds(): the duration in seconds as a float64,
modelled exactly as a rational. -/
def seconds (d : Int) : ℚ := (d : ℚ) / (nsPerSecond : ℚ)

/-- main.go / pacer source: rampHoldPacer struct (durations in nanoseconds). -/
structure RampHoldPacer where
  startRate : Int
  endRate : Int
  rampDuration : Int
  holdDuration : Int
deriving DecidableEq

/-- rampHoldPacer.Rate (lines 68-76): linear interpolation during the
ramp phase, pinned at endRate afterwards. Pace computes the identical
expression for its currentRate. -/
def RampHoldPacer.Rate (p : RampHoldPacer) (elapsed : Int) : ℚ :=
  if elapsed < p.rampDuration then
    (p.startRate : ℚ) + ((p.endRate - p.startRate : Int) : ℚ) * (seconds elapsed / seconds p.rampDuration)
  else ((p.endRate : Int) : ℚ)

/-- Go conversion time.Duration(f) of a float64 f: truncation toward zero. -/
def durationOfFloat (q : ℚ) : Int := if 0 ≤ q then ⌊q⌋ else ⌈q⌉

/-- rampHoldPacer.Pace (lines 44-66). The request count argument is
ignored by the source (underscore). waitTime := time.Second / time.Duration(currentRate)
first truncates the float64 rate to an integer number of nanoseconds
worth of Duration, then divides; when the truncation yields zero Go
panics with an integer division by zero, modelled as none. -/
def RampHoldPacer.Pace (p : RampHoldPacer) (elapsed : Int) : Option (Int × Bool) :=
  if p.rampDuration + p.holdDuration ≤ elapsed then some (0, true)
  else
    if 0 < p.Rate elapsed then
      if durationOfFloat (p.Rate elapsed) = 0 then none
      else some (Int.tdiv nsPerSecond (durationOfFloat (p.Rate elapsed)), false)
    else some (nsPerSecond, false)

/-- The pacer values the program can construct: vegeta.LinearPacer,
vegeta.ConstantPacer, vegeta.Rate (the constant rate used by the
constant-rate attack) and the local rampHoldPacer. -/
inductive GoPacer where
  | linear (startFreq : Int) (slope : ℚ)
  | constant (freq : Int)
  | vegetaRate (freq : Int)
  | rampHold (p : RampHoldPacer)
deriving DecidableEq

/-- createRampUpPacer (lines 11-34): holdDuration zero gives a
vegeta.LinearPacer over the whole duration; otherwise a non-positive
ramp length degrades to vegeta.ConstantPacer at endRate; otherwise the
composite rampHoldPacer. Durations in nanoseconds. -/
def createRampUpPacer (startRate endRate : Int) (duration holdDuration : Int) : GoPacer :=
  if holdDuration = 0 then
    GoPacer.linear startRate (((endRate - startRate : Int) : ℚ) / seconds duration)
  else if duration - holdDuration ≤ 0 then GoPacer.constant endRate
  else GoPacer.rampHold ⟨startRate, endRate, duration - holdDuration, holdDuration⟩

/-- attack.go lines 50-56 with runRampUpAttack line 79-80 and
runConstantRateAttack lines 63-67: which pacer the attack run uses. A
config with a ramp uses the ramp pacer (the constant rate field is
ignored); otherwise the constant vegeta.Rate. -/
def attackPacer (c : LoadTestConfig) : GoPacer :=
  match c.rampUp with
  | some ru =>
      createRampUpPacer ru.startRate ru.endRate (c.duration * nsPerSecond)
        (ru.holdDuration * nsPerSecond)
  | none => GoPacer.vegetaRate c.rate

/-- Modelled from the spec: the per-request Outcome Record of section 3
(status code or absence thereof, latency, bytes sent and received, error
description). The vegeta result type is library code not under src. -/
structure OutcomeRecord where
  code : Nat
  latencyNs : Nat
  bytesIn : Nat
  bytesOut : Nat
  error : Option String
deriving DecidableEq

/-- Modelled from the spec: the mutable accumulator of section 3
(monotone counters, byte totals, status-code histogram, latency sketch).
The histogram and the latency sketch are modelled as multisets, which is
exactly the order-free information a streaming sketch accumulates. -/
structure Metrics where
  requests : Nat
  successes : Nat
  bytesInTotal : Nat
  bytesOutTotal : Nat
  statusCodes : Multiset Nat
  latencies : Multiset Nat
deriving DecidableEq

/-- Modelled from the spec: a record counts as a success when it carries
no transport error and a 2xx or 3xx status (section 4.3: a transport
failure lowers the success ratio). -/
def isSuccess (r : OutcomeRecord) : Bool :=
  r.error = none && 200 ≤ r.code && r.code < 400

/-- Modelled from the spec: Metrics.Add of section 4.4 (vegeta.Metrics
is library code not under src) - fold one Outcome Record into the
accumulator. -/
def metricsAdd (m : Metrics) (r : OutcomeRecord) : Metrics where
  requests := m.requests + 1
  successes := m.successes + (if isSuccess r then 1 else 0)
  bytesInTotal := m.bytesInTotal + r.bytesIn
  bytesOutTotal := m.bytesOutTotal + r.bytesOut
  statusCodes := r.code ::ₘ m.statusCodes
  latencies := r.latencyNs ::ₘ m.latencies

/-- The zero-valued accumulator (var metrics vegeta.Metrics). -/
def metricsInit : Metrics := ⟨0, 0, 0, 0, 0, 0⟩

/-- attack.go lines 69-74: the aggregation loop folding every outcome
into the accumulator in arrival order. -/
def aggregate (records : List OutcomeRecord) : Metrics :=
  records.foldl metricsAdd metricsInit

/-- Modelled from the spec, section 4.4: success ratio = successCount /
totalRequests. -/
def successRate (m : Metrics) : ℚ := (m.successes : ℚ) / (m.requests : ℚ)

/-! Helper lemmas shared by the claim theorems. -/

/-- The two Seconds() conversions cancel: the progress quotient equals
the plain quotient of the nanosecond counts. -/
theorem seconds_div_seconds (a b : Int) : seconds a / seconds b = (a : ℚ) / (b : ℚ) := by
  rw [seconds, seconds, div_div_div_comm, div_self (by norm_num [nsPerSecond]), div_one]

theorem uint64ToInt_of_small {x : Nat} (h : x % 2 ^ 64 < 2 ^ 63) :
    uint64ToInt x = ((x % 2 ^ 64 : Nat) : Int) := by
  rw [uint64ToInt, if_pos h]

theorem rotIndex_of_small {calls : Nat} (n : Nat) (h : calls % 2 ^ 64 < 2 ^ 63) :
    rotIndex calls n = (((calls % 2 ^ 64) % n : Nat) : Int) := by
  rw [rotIndex, uint64ToInt_of_small h, ← Int.ofNat_tmod]

theorem rotIndex_small {calls : Nat} (n : Nat) (h : calls < 2 ^ 63) :
    rotIndex calls n = ((calls % n : Nat) : Int) := by
  have h64 : calls % 2 ^ 64 = calls := Nat.mod_eq_of_lt (lt_trans h (by norm_num))
  rw [rotIndex_of_small n (by rw [h64]; exact h), h64]

/-- Below 2^63 prior calls the index computation is plain round-robin. -/
theorem targeterSelect_small (procs : List ProcReq) {calls : Nat} (h : calls < 2 ^ 63) :
    targeterSelect procs calls = procs.get? (calls % procs.length) := by
  rw [targeterSelect, rotIndex_small _ h, if_pos (Int.natCast_nonneg _), Int.toNat_ofNat]

theorem createRampUpPacer_hold_ge (s e d h : Int) (hd : 0 < d) (hh : d ≤ h) :
    createRampUpPacer s e d h = GoPacer.constant e := by
  rw [createRampUpPacer, if_neg (by omega : ¬ h = 0), if_pos (by omega : d - h ≤ 0)]

/-- Closed form of the ramp-phase rate. -/
theorem rate_ramp_eq (p : RampHoldPacer) {t : Int} (ht : t < p.rampDuration) :
    p.Rate t = (p.startRate : ℚ) +
      ((p.endRate : ℚ) - (p.startRate : ℚ)) * ((t : ℚ) / (p.rampDuration : ℚ)) := by
  rw [RampHoldPacer.Rate, if_pos ht, seconds_div_seconds]
  push_cast
  ring

theorem rate_hold_eq (p : RampHoldPacer) {t : Int} (ht : p.rampDuration ≤ t) :
    p.Rate t = (p.endRate : ℚ) := by
  rw [RampHoldPacer.Rate, if_neg (not_lt.mpr ht)]

/-- Folding two outcome records commutes. -/
theorem metricsAdd_rightComm (m : Metrics) (a b : OutcomeRecord) :
    metricsAdd (metricsAdd m a) b = metricsAdd (metricsAdd m b) a := by
  simp only [metricsAdd, Metrics.mk.injEq]
  exact ⟨trivial, Nat.add_right_comm _ _ _, Nat.add_right_comm _ _ _, Nat.add_right_comm _ _ _,
    Multiset.cons_swap _ _ _, Multiset.cons_swap _ _ _⟩

theorem foldl_metricsAdd_perm {l1 l2 : List OutcomeRecord} (h : l1.Perm l2) :
    ∀ m : Metrics, l1.foldl metricsAdd m = l2.foldl metricsAdd m := by
  induction h with
  | nil => intro m; rfl
  | cons x _ ih => intro m; rw [List.foldl_cons, List.foldl_cons, ih]
  | swap x y l =>
      intro m
      rw [List.foldl_cons, List.foldl_cons, List.foldl_cons, List.foldl_cons,
        metricsAdd_rightComm]
  | trans _ _ ih1 ih2 => intro m; rw [ih1, ih2]

/-! Claim theorems. -/

/-- Claim C1, counterexample: on a three-template table the call with
index 2^63 (0-based, sequential) does not return the template at index
2^63 mod 3 = 2; the uint64-to-int conversion makes the computed index
negative (-2) and the Go lookup panics (modelled as none). -/
theorem c1_rotation_counterexample :
    targeterSelect
        [⟨("GET"), ("http://localhost/a"), none, []⟩,
          ⟨("GET"), ("http://localhost/b"), none, []⟩,
          ⟨("GET"), ("http://localhost/c"), none, []⟩] (2 ^ 63) = none ∧
      2 ^ 63 % 3 = 2 ∧
      [⟨("GET"), ("http://localhost/a"), none, []⟩,
        ⟨("GET"), ("http://localhost/b"), none, []⟩,
        (⟨("GET"), ("http://localhost/c"), none, []⟩ : ProcReq)].get? 2 =
        some ⟨("GET"), ("http://localhost/c"), none, []⟩ := by
  refine ⟨by decide, by decide, by decide⟩

/-- Claim C1 (amended): under sequential calls, for every call index i
below 2^63 the targeter selects the template at index i mod N; from call
2^63 on, the uint64-to-int conversion makes the index negative and the
lookup panics whenever N does not divide the negative dividend. -/
theorem c1_rotation_amended (procs : List ProcReq) (i : Nat) (hi : i < 2 ^ 63) :
    targeterSelect procs i = procs.get? (i % procs.length) :=
  targeterSelect_small procs hi

/-- Witness for c1_rotation_amended at a two-template table and call 5. -/
theorem c1_rotation_amended_witness :
    5 < 2 ^ 63 ∧
      targeterSelect
          [⟨("GET"), ("http://localhost/x"), none, []⟩,
            ⟨("GET"), ("http://localhost/y"), none, []⟩] 5 =
        [⟨("GET"), ("http://localhost/x"), none, []⟩,
          (⟨("GET"), ("http://localhost/y"), none, []⟩ : ProcReq)].get? (5 % 2) :=
  ⟨by decide, c1_rotation_amended _ 5 (by decide)⟩

/-- Claim C10, counterexample: at counter value 2^63 (that many prior
increments) and a three-entry table the computed index is -2, outside
[0, 3); the lookup is out of bounds. -/
theorem c10_index_counterexample :
    rotIndex (2 ^ 63) 3 = -2 ∧ ¬ (0 ≤ rotIndex (2 ^ 63) 3 ∧ rotIndex (2 ^ 63) 3 < 3) := by
  refine ⟨by decide, by decide⟩

/-- Claim C10 (amended): the computed index lies in [0, N) for every
counter value whose uint64 dividend is below 2^63; at or above 2^63 the
int conversion is negative and the index can leave [0, N). -/
theorem c10_index_in_bounds (calls n : Nat) (hn : 0 < n) (hc : calls % 2 ^ 64 < 2 ^ 63) :
    0 ≤ rotIndex calls n ∧ rotIndex calls n < (n : Int) := by
  rw [rotIndex_of_small n hc]
  exact ⟨Int.natCast_nonneg _, by exact_mod_cast Nat.mod_lt _ hn⟩

/-- Witness for c10_index_in_bounds at counter value 7 and table size 3. -/
theorem c10_index_in_bounds_witness :
    0 < 3 ∧ 7 % 2 ^ 64 < 2 ^ 63 ∧ 0 ≤ rotIndex 7 3 ∧ rotIndex 7 3 < 3 := by
  have h := c10_index_in_bounds 7 3 (by decide) (by decide)
  exact ⟨by decide, by decide, h.1, h.2⟩

/-- Claim C2: at the pacer (start 0, end 1, ramp 10s, hold 5s) and
elapsed 5s the instantaneous rate is 1/2, which is positive, so the
fallback branch is not taken; yet time.Duration(0.5) truncates to 0 and
time.Second / 0 is an integer division by zero - Pace panics (none).
The float64 computation at this input is exact, so the rational model
agrees with the Go execution bit for bit. -/
theorem c2_pace_division_by_zero :
    RampHoldPacer.Rate ⟨0, 1, 10000000000, 5000000000⟩ 5000000000 = 1 / 2 ∧
      RampHoldPacer.Pace ⟨0, 1, 10000000000, 5000000000⟩ 5000000000 = none := by
  have hrate : RampHoldPacer.Rate ⟨0, 1, 10000000000, 5000000000⟩ 5000000000 = 1 / 2 := by
    rw [rate_ramp_eq _ (by decide)]
    push_cast
    norm_num
  have hfloor : durationOfFloat (1 / 2 : ℚ) = 0 := by
    rw [durationOfFloat, if_pos (by norm_num), Int.floor_eq_iff]
    norm_num
  refine ⟨hrate, ?_⟩
  rw [RampHoldPacer.Pace, if_neg (by decide), hrate, if_pos (by norm_num), if_pos hfloor]

/-- Claim C3: with a positive total duration (every run constructs one)
and holdDuration at least the total duration, createRampUpPacer returns
exactly the constant pacer at endRate, so its Pace and Rate are those of
that constant pacer. -/
theorem c3_hold_degeneration (s e d h : Int) (hd : 0 < d) (hh : d ≤ h) :
    createRampUpPacer s e d h = GoPacer.constant e :=
  createRampUpPacer_hold_ge s e d h hd hh

/-- Witness for c3_hold_degeneration: duration 10s, hold 20s. -/
theorem c3_hold_degeneration_witness :
    (0 : Int) < 10000000000 ∧ (10000000000 : Int) ≤ 20000000000 ∧
      createRampUpPacer 2 7 10000000000 20000000000 = GoPacer.constant 7 :=
  ⟨by decide, by decide, c3_hold_degeneration 2 7 10000000000 20000000000 (by decide) (by decide)⟩

/-- Claim C4: for startRate < endRate (and the positive ramp length every
constructed rampHoldPacer has) the rate is non-decreasing everywhere,
equals startRate at 0 and endRate at rampDuration, and is constant at
endRate through the hold phase. -/
theorem c4_ramp_rate_monotone (p : RampHoldPacer) (hr : 0 < p.rampDuration)
    (hs : p.startRate < p.endRate) :
    (∀ t1 t2 : Int, t1 ≤ t2 → p.Rate t1 ≤ p.Rate t2) ∧
      p.Rate 0 = (p.startRate : ℚ) ∧
      p.Rate p.rampDuration = (p.endRate : ℚ) ∧
      (∀ t : Int, p.rampDuration ≤ t → p.Rate t = (p.endRate : ℚ)) := by
  have hrQ : (0 : ℚ) < (p.rampDuration : ℚ) := by exact_mod_cast hr
  have hdQ : (0 : ℚ) ≤ (p.endRate : ℚ) - (p.startRate : ℚ) := by
    have hsQ : (p.startRate : ℚ) < (p.endRate : ℚ) := by exact_mod_cast hs
    linarith
  have hmono : ∀ t1 t2 : Int, t1 ≤ t2 → p.Rate t1 ≤ p.Rate t2 := by
    intro t1 t2 h12
    by_cases h2 : t2 < p.rampDuration
    · have h1 : t1 < p.rampDuration := lt_of_le_of_lt h12 h2
      rw [rate_ramp_eq p h1, rate_ramp_eq p h2]
      have ht12 : (t1 : ℚ) ≤ (t2 : ℚ) := by exact_mod_cast h12
      have hdiv : (t1 : ℚ) / (p.rampDuration : ℚ) ≤ (t2 : ℚ) / (p.rampDuration : ℚ) :=
        (div_le_div_iff_of_pos_right hrQ).mpr ht12
      nlinarith
    · by_cases h1 : t1 < p.rampDuration
      · rw [rate_ramp_eq p h1, rate_hold_eq p (not_lt.mp h2)]
        have ht1 : (t1 : ℚ) ≤ (p.rampDuration : ℚ) := by
          exact_mod_cast le_of_lt h1
        have hdiv : (t1 : ℚ) / (p.rampDuration : ℚ) ≤ 1 := (div_le_one hrQ).mpr ht1
        nlinarith
      · rw [rate_hold_eq p (not_lt.mp h1), rate_hold_eq p (not_lt.mp h2)]
  refine ⟨hmono, ?_, rate_hold_eq p le_rfl, fun t ht => rate_hold_eq p ht⟩
  rw [rate_ramp_eq p hr]
  push_cast
  ring

/-- Witness for c4_ramp_rate_monotone at the pacer (start 1, end 5,
ramp 2s, hold 1s) and some concrete times. -/
theorem c4_ramp_rate_monotone_witness :
    (0 : Int) < (⟨1, 5, 2000000000, 1000000000⟩ : RampHoldPacer).rampDuration ∧
      (⟨1, 5, 2000000000, 1000000000⟩ : RampHoldPacer).startRate <
        (⟨1, 5, 2000000000, 1000000000⟩ : RampHoldPacer).endRate ∧
      RampHoldPacer.Rate ⟨1, 5, 2000000000, 1000000000⟩ 500000000 ≤
        RampHoldPacer.Rate ⟨1, 5, 2000000000, 1000000000⟩ 1500000000 ∧
      RampHoldPacer.Rate ⟨1, 5, 2000000000, 1000000000⟩ 0 = 1 ∧
      RampHoldPacer.Rate ⟨1, 5, 2000000000, 1000000000⟩ 2000000000 = 5 ∧
      RampHoldPacer.Rate ⟨1, 5, 2000000000, 1000000000⟩ 3000000000 = 5 := by
  have h := c4_ramp_rate_monotone ⟨1, 5, 2000000000, 1000000000⟩ (by decide) (by decide)
  refine ⟨by decide, by decide, h.1 500000000 1500000000 (by decide), ?_, ?_, ?_⟩
  · rw [h.2.1]; norm_num
  · rw [h.2.2.1]; norm_num
  · rw [h.2.2.2 3000000000 (by decide)]; norm_num

/-- Claim C5, counterexample: at the pacer (start 1, end 2, ramp 2s,
hold 1s) and elapsed 1s the rate is exactly 1.5 (exact in float64 too),
so the claimed wait is 1/1.5 s ≈ 666666666.7 ns; the code truncates the
rate to time.Duration(1.5) = 1 first and waits a full second. -/
theorem c5_wait_counterexample :
    RampHoldPacer.Rate ⟨1, 2, 2000000000, 1000000000⟩ 1000000000 = 3 / 2 ∧
      RampHoldPacer.Pace ⟨1, 2, 2000000000, 1000000000⟩ 1000000000 =
        some (1000000000, false) ∧
      ((1000000000 : Int) : ℚ) ≠ ((nsPerSecond : Int) : ℚ) / (3 / 2) := by
  have hrate : RampHoldPacer.Rate ⟨1, 2, 2000000000, 1000000000⟩ 1000000000 = 3 / 2 := by
    rw [rate_ramp_eq _ (by decide)]
    push_cast
    norm_num
  have hfloor : durationOfFloat (3 / 2 : ℚ) = 1 := by
    rw [durationOfFloat, if_pos (by norm_num), Int.floor_eq_iff]
    norm_num
  refine ⟨hrate, ?_, by norm_num [nsPerSecond]⟩
  rw [RampHoldPacer.Pace, if_neg (by decide), hrate, if_pos (by norm_num),
    if_neg (by rw [hfloor]; decide), hfloor]
  decide

/-- Claim C5 (amended): whenever the schedule is not yet complete and the
truncated instantaneous rate is at least 1, the wait is one second
integer-divided by the truncation of the rate - 1 over the truncated
rate, rounded down to whole nanoseconds - not 1 over the rate itself;
for rates in (0, 1) Pace divides by zero instead. -/
theorem c5_wait_is_inverse_truncated_rate (p : RampHoldPacer) (elapsed : Int)
    (h1 : elapsed < p.rampDuration + p.holdDuration)
    (h2 : 1 ≤ durationOfFloat (p.Rate elapsed)) :
    p.Pace elapsed = some (Int.tdiv nsPerSecond (durationOfFloat (p.Rate elapsed)), false) := by
  have hpos : 0 < p.Rate elapsed := by
    by_contra hneg
    push_neg at hneg
    have hle : durationOfFloat (p.Rate elapsed) ≤ 0 := by
      rw [durationOfFloat]
      split_ifs with hge
      · have h0 : p.Rate elapsed = 0 := le_antisymm hneg hge
        simp [h0]
      · exact Int.ceil_le.mpr (by simpa using hneg)
    omega
  rw [RampHoldPacer.Pace, if_neg (not_le.mpr h1), if_pos hpos, if_neg (by omega)]

/-- Witness for c5_wait_is_inverse_truncated_rate at the pacer (start 2,
end 2, ramp 2s, hold 1s) and elapsed 0: the rate is 2 and the wait is
half a second. -/
theorem c5_wait_is_inverse_truncated_rate_witness :
    (0 : Int) < (⟨2, 2, 2000000000, 1000000000⟩ : RampHoldPacer).rampDuration +
        (⟨2, 2, 2000000000, 1000000000⟩ : RampHoldPacer).holdDuration ∧
      1 ≤ durationOfFloat (RampHoldPacer.Rate ⟨2, 2, 2000000000, 1000000000⟩ 0) ∧
      RampHoldPacer.Pace ⟨2, 2, 2000000000, 1000000000⟩ 0 =
        some (Int.tdiv nsPerSecond
          (durationOfFloat (RampHoldPacer.Rate ⟨2, 2, 2000000000, 1000000000⟩ 0)), false) := by
  have hrate : RampHoldPacer.Rate ⟨2, 2, 2000000000, 1000000000⟩ 0 = 2 := by
    rw [rate_ramp_eq _ (by decide)]
    push_cast
    norm_num
  have hfl : durationOfFloat (RampHoldPacer.Rate ⟨2, 2, 2000000000, 1000000000⟩ 0) = 2 := by
    rw [hrate, durationOfFloat, if_pos (by norm_num), Int.floor_eq_iff]
    norm_num
  refine ⟨by decide, by rw [hfl]; decide,
    c5_wait_is_inverse_truncated_rate _ 0 (by decide) (by rw [hfl]; decide)⟩

/-- Claim C6, counterexample: a configuration with both a constant rate
(100) and a ramp, and a hold (20s) exceeding the duration (10s), passes
validateLimits (ok) and the run proceeds: the attack uses the ramp
branch and the pacer silently degrades to a constant pacer at endRate -
no construction failure is surfaced. -/
theorem c6_schedule_validation_counterexample :
    validateLimits ⟨10, 100, some ⟨1, 2, 20⟩, 5, 0, none, none, none, none, []⟩ =
        Except.ok () ∧
      attackPacer ⟨10, 100, some ⟨1, 2, 20⟩, 5, 0, none, none, none, none, []⟩ =
        GoPacer.constant 2 :=
  ⟨rfl, rfl⟩

/-- Claim C6 (amended): the code performs no contradictory-schedule
validation. Every in-limits configuration carrying both a rate and a
ramp with hold at least the duration passes validateLimits, the ramp
takes precedence over the constant rate, and the pacer construction
silently degrades to the constant pacer at endRate instead of failing. -/
theorem c6_no_schedule_validation (c : LoadTestConfig) (ru : RampUpConfig)
    (hru : c.rampUp = some ru)
    (hd0 : 0 < c.duration) (hdm : c.duration ≤ MAX_TEST_DURATION)
    (hr0 : 0 ≤ c.rate) (hrm : c.rate ≤ MAX_TEST_RATE)
    (ht0 : 0 ≤ c.timeout) (htm : c.timeout ≤ MAX_TEST_TIMEOUT)
    (hw : 0 ≤ c.warmupDelay) (hred : redirectsNegative c = false)
    (hh : c.duration ≤ ru.holdDuration) :
    validateLimits c = Except.ok () ∧ attackPacer c = GoPacer.constant ru.endRate := by
  constructor
  · rw [validateLimits, if_neg (by omega), if_neg (by omega), if_neg (by omega),
      if_neg (by omega), if_neg (by simp [hred]), if_neg (by omega), if_neg (by omega),
      if_neg (by omega)]
  · have hstep : attackPacer c = createRampUpPacer ru.startRate ru.endRate
        (c.duration * nsPerSecond) (ru.holdDuration * nsPerSecond) := by
      rw [attackPacer, hru]
    rw [hstep]
    refine createRampUpPacer_hold_ge _ _ _ _ ?_ ?_
    · have : (0 : Int) < 1000000000 := by decide
      rw [nsPerSecond]
      positivity
    · rw [nsPerSecond]
      omega

/-- Witness for c6_no_schedule_validation at a concrete configuration
(duration 10s, no constant rate, ramp 1 to 2 with 20s hold). -/
theorem c6_no_schedule_validation_witness :
    (⟨10, 0, some ⟨1, 2, 20⟩, 5, 3, none, none, none, none, []⟩ :
        LoadTestConfig).rampUp = some ⟨1, 2, 20⟩ ∧
      (0 : Int) < 10 ∧ (10 : Int) ≤ MAX_TEST_DURATION ∧
      (0 : Int) ≤ 0 ∧ (0 : Int) ≤ MAX_TEST_RATE ∧
      (0 : Int) ≤ 5 ∧ (5 : Int) ≤ MAX_TEST_TIMEOUT ∧
      (0 : Int) ≤ 3 ∧
      redirectsNegative ⟨10, 0, some ⟨1, 2, 20⟩, 5, 3, none, none, none, none, []⟩ = false ∧
      (10 : Int) ≤ 20 ∧
      validateLimits ⟨10, 0, some ⟨1, 2, 20⟩, 5, 3, none, none, none, none, []⟩ =
        Except.ok () ∧
      attackPacer ⟨10, 0, some ⟨1, 2, 20⟩, 5, 3, none, none, none, none, []⟩ =
        GoPacer.constant 2 := by
  have h := c6_no_schedule_validation
    ⟨10, 0, some ⟨1, 2, 20⟩, 5, 3, none, none, none, none, []⟩ ⟨1, 2, 20⟩
    rfl (by decide) (by decide) (by decide) (by decide) (by decide) (by decide)
    (by decide) rfl (by decide)
  exact ⟨rfl, by decide, by decide, by decide, by decide, by decide, by decide, by decide,
    rfl, by decide, h.1, h.2⟩

/-- Claim C7: the program refuses an empty request list before it builds
the rotation source (main.go exits with an error), and the targeter pre-
processing only ever runs on a non-empty list. -/
theorem c7_empty_list_fails :
    mainBuildTargeter [] = Except.error ("Error: No requests found in config file") ∧
      ∀ (reqs : List RequestConfig) (out : List String × List ProcReq),
        mainBuildTargeter reqs = Except.ok out → reqs ≠ [] := by
  refine ⟨rfl, ?_⟩
  intro reqs out h hcon
  subst hcon
  simp [mainBuildTargeter] at h

/-- Witness for c7_empty_list_fails on a one-request list. -/
theorem c7_empty_list_fails_witness :
    mainBuildTargeter [⟨("GET"), ("http://localhost/w"), (""), (""), []⟩] =
        Except.ok (preprocess [⟨("GET"), ("http://localhost/w"), (""), (""), []⟩]) ∧
      [(⟨("GET"), ("http://localhost/w"), (""), (""), []⟩ : RequestConfig)] ≠ [] :=
  ⟨rfl, c7_empty_list_fails.2 _ _ rfl⟩

/-- Claim C8, counterexample: with one POST template with body AB the
calls 0 and 1 both return a target whose body is the same buffer
(reference 0); writing XY through the value returned by call 0 is
observed through the value returned by call 1, which now reads XY, not
AB - the body is not an independent copy. -/
theorem c8_shared_body_counterexample :
    targeterCall (preprocess [⟨("POST"), ("http://localhost/a"), ("AB"), (""), []⟩]).2 0 =
        some ⟨("POST"), ("http://localhost/a"), some 0,
          [(("User-Agent"), [("otto-load-test")])]⟩ ∧
      targeterCall (preprocess [⟨("POST"), ("http://localhost/a"), ("AB"), (""), []⟩]).2 1 =
        some ⟨("POST"), ("http://localhost/a"), some 0,
          [(("User-Agent"), [("otto-load-test")])]⟩ ∧
      readBody (preprocess [⟨("POST"), ("http://localhost/a"), ("AB"), (""), []⟩]).1
          ⟨("POST"), ("http://localhost/a"), some 0,
            [(("User-Agent"), [("otto-load-test")])]⟩ = some ("AB") ∧
      readBody
          (writeBody (preprocess [⟨("POST"), ("http://localhost/a"), ("AB"), (""), []⟩]).1
            ⟨("POST"), ("http://localhost/a"), some 0,
              [(("User-Agent"), [("otto-load-test")])]⟩ ("XY"))
          ⟨("POST"), ("http://localhost/a"), some 0,
            [(("User-Agent"), [("otto-load-test")])]⟩ = some ("XY") ∧
      ("XY" : String) ≠ ("AB") := by
  refine ⟨by decide, by decide, by decide, by decide, by decide⟩

/-- Claim C8 (amended): method and URL are copied and the header map is
rebuilt per call, but the body bytes are not copied - any two calls
(below 2^63) selecting the same template return values referencing the
one shared body buffer of that template, so in-place mutations of the
body are observable across such calls. -/
theorem c8_same_template_shares_body (reqs : List RequestConfig) (i j : Nat)
    (hi : i < 2 ^ 63) (hj : j < 2 ^ 63)
    (hmod : i % (preprocess reqs).2.length = j % (preprocess reqs).2.length) :
    (targeterCall (preprocess reqs).2 i).map TargetVal.bodyRef =
      (targeterCall (preprocess reqs).2 j).map TargetVal.bodyRef := by
  rw [targeterCall, targeterCall, targeterSelect_small _ hi, targeterSelect_small _ hj, hmod]

/-- Witness for c8_same_template_shares_body: one template, calls 0 and 1. -/
theorem c8_same_template_shares_body_witness :
    0 < 2 ^ 63 ∧ 1 < 2 ^ 63 ∧
      0 % (preprocess [⟨("POST"), ("http://localhost/z"), ("QQ"), (""), []⟩]).2.length =
        1 % (preprocess [⟨("POST"), ("http://localhost/z"), ("QQ"), (""), []⟩]).2.length ∧
      (targeterCall (preprocess [⟨("POST"), ("http://localhost/z"), ("QQ"), (""), []⟩]).2 0).map
          TargetVal.bodyRef =
        (targeterCall (preprocess [⟨("POST"), ("http://localhost/z"), ("QQ"), (""), []⟩]).2 1).map
          TargetVal.bodyRef :=
  ⟨by decide, by decide, by decide,
    c8_same_template_shares_body _ 0 1 (by decide) (by decide) (by decide)⟩

/-- Claim C9: feeding the same outcome records to the aggregator in any
permutation yields the same accumulator - the same request count, success
count, byte totals, status-code histogram, latency multiset (hence
identical percentiles, with zero epsilon) - and the same success ratio. -/
theorem c9_aggregate_order_independent (l1 l2 : List OutcomeRecord) (h : l1.Perm l2) :
    aggregate l1 = aggregate l2 ∧
      successRate (aggregate l1) = successRate (aggregate l2) := by
  have key : aggregate l1 = aggregate l2 := foldl_metricsAdd_perm h metricsInit
  exact ⟨key, by rw [key]⟩

/-- Witness for c9_aggregate_order_independent on a two-record multiset
(one success with status 200, one transport failure) in both orders. -/
theorem c9_aggregate_order_independent_witness :
    ([⟨200, 5, 10, 20, none⟩, ⟨500, 7, 1, 2, some ("boom")⟩] :
        List OutcomeRecord).Perm
        [⟨500, 7, 1, 2, some ("boom")⟩, ⟨200, 5, 10, 20, none⟩] ∧
      aggregate [⟨200, 5, 10, 20, none⟩, ⟨500, 7, 1, 2, some ("boom")⟩] =
        aggregate [⟨500, 7, 1, 2, some ("boom")⟩, ⟨200, 5, 10, 20, none⟩] ∧
      successRate (aggregate [⟨200, 5, 10, 20, none⟩, ⟨500, 7, 1, 2, some ("boom")⟩]) =
        successRate (aggregate [⟨500, 7, 1, 2, some ("boom")⟩, ⟨200, 5, 10, 20, none⟩]) := by
  have hperm : ([⟨200, 5, 10, 20, none⟩, ⟨500, 7, 1, 2, some ("boom")⟩] :
      List OutcomeRecord).Perm
      [⟨500, 7, 1, 2, some ("boom")⟩, ⟨200, 5, 10, 20, none⟩] :=
    List.Perm.swap _ _ _
  have h := c9_aggregate_order_independent _ _ hperm
  exact ⟨hperm, h.1, h.2⟩

end LoadTest
